import Mathlib

/-
Verification of the lead-enrichment Streamlit application in `src/main.py`
(repository `gtm-scrape`).

The development shallowly embeds the parts of `main.py` that the spec's
testable properties are about:

* the per-row mask of the "Remove Rows with Failed Website Scraping"
  button (`main.py` lines 669-697);
* the merge of personality-analysis results back into the full table
  (`main.py` lines 773-794), together with the `head`-based subset
  selection and the boolean-mask filter;
* the session-state transitions of the UI callbacks: company analysis
  (lines 320-411), context approval (lines 478-487), start over
  (lines 490-496), edit (line 515), manual context entry (lines 540-555),
  CSV upload (lines 560-578) and the Analyze Personalities gate
  (lines 720-794);
* the sidebar API-key prompt condition (lines 208-254).

Tables are association lists: a dataframe is a list of `(index, row)`
pairs and a row is a list of `(column, cell)` pairs, where a cell is
`Option String` (`none` models a pandas `NaN`).  Python dictionaries
(`st.session_state.company_context`) are association lists of strings.
External calls (the company analyzer, the personality analyzer) are
passed to the transition functions as explicit results, an `Except` for
calls that may raise.
-/

namespace GtmScrape

/-! ## String primitives (models of the Python/pandas string operations) -/

/-- Model of Python `str.lower` (character-wise lowering). -/
def lowerChars (l : List Char) : List Char := l.map Char.toLower

/-- Model of Python `str.lower` on strings. -/
def lowerStr (s : String) : String := String.mk (lowerChars s.toList)

/-- Does the first character list start with the second? -/
def listStartsWith : List Char → List Char → Bool
  | _, [] => true
  | [], _ :: _ => false
  | a :: s, b :: p => a == b && listStartsWith s p

/-- Does the first character list contain the second as a contiguous run? -/
def listContainsSub : List Char → List Char → Bool
  | [], p => p.isEmpty
  | a :: s, p => listStartsWith (a :: s) p || listContainsSub s p

/-- Model of `str.startswith(p)` for Python strings. -/
def strStartsWith (s p : String) : Bool := listStartsWith s.toList p.toList

/-- Model of case-insensitive substring containment, as performed by
`Series.str.contains(p, case=False)` for a pattern without regex
metacharacters. -/
def strContainsCI (s p : String) : Bool :=
  listContainsSub (lowerChars s.toList) (lowerChars p.toList)

/-- Model of Python `str.isspace`: non-empty and all whitespace. -/
def isSpaceStr (s : String) : Bool :=
  !s.toList.isEmpty && s.toList.all Char.isWhitespace

/-- Model of Python `str.strip()`: drop leading and trailing whitespace. -/
def stripChars (l : List Char) : List Char :=
  ((l.dropWhile Char.isWhitespace).reverse.dropWhile Char.isWhitespace).reverse

/-- Model of Python `str.strip()` on strings. -/
def pyStrip (s : String) : String := String.mk (stripChars s.toList)

/-! ## Tables

A pandas dataframe is embedded as a list of `(index, row)` pairs; the
index survives `head`, boolean-mask filtering and label-based `.loc`
writes, which is exactly what the spec's row-identity invariant is
about.  A cell is `Option String`, with `none` for `NaN`. -/

/-- A dataframe cell; `none` models a pandas `NaN`. -/
abbrev Cell := Option String

/-- A dataframe row: association list from column name to cell. -/
abbrev Row := List (String × Cell)

/-- A dataframe: association list from row index to row. -/
abbrev Df := List (Nat × Row)

/-- A Python dict of strings (the company-context record). -/
abbrev Ctx := List (String × String)

/-- The `website_content` cell of a row (a missing column reads as `NaN`;
the button that uses it is only rendered when the column exists). -/
def rowContent (r : Row) : Cell := ((r.lookup "website_content").getD none)

/-! ## The failed-scrape mask (`main.py` lines 672-687)

Each helper models one pandas `Series.str` operation applied to a single
cell, with the `na=False` / `fillna(False)` treatment of `NaN` cells
that the source uses. -/

/-- `Series.str.startswith(p, na=False)` on one cell. -/
def serStartsWith (c : Cell) (p : String) : Bool :=
  match c with
  | none => false
  | some s => strStartsWith s p

/-- `Series.str.contains(p, case=False, na=False)` on one cell. -/
def serContainsCI (c : Cell) (p : String) : Bool :=
  match c with
  | none => false
  | some s => strContainsCI s p

/-- `Series.str.isspace().fillna(False)` on one cell. -/
def serIsSpace (c : Cell) : Bool :=
  match c with
  | none => false
  | some s => isSpaceStr s

/-- `Series.str.len() < n` on one cell (`NaN < n` is false in pandas). -/
def serLenLt (c : Cell) (n : Nat) : Bool :=
  match c with
  | none => false
  | some s => s.length < n

/-- `Series.isna()` on one cell. -/
def serIsNa (c : Cell) : Bool := c.isNone

/-- `Series == ""` on one cell (`NaN == ""` is false in pandas). -/
def serEqEmpty (c : Cell) : Bool := c == some ""

/-- The disjunction inside the mask of the "Remove Rows with Failed
Website Scraping" button (`main.py` lines 672-687): `true` means the
row is flagged as failed and dropped. -/
def failedContent (c : Cell) : Bool :=
  serStartsWith c "Error:" ||
  serStartsWith c "No URL provided" ||
  serStartsWith c "Invalid URL" ||
  serContainsCI c "failed to scrape" ||
  serContainsCI c "timed out" ||
  serContainsCI c "access denied" ||
  serContainsCI c "error" ||
  serIsNa c ||
  serEqEmpty c ||
  serIsSpace c ||
  serLenLt c 50

/-- The button's effect on the table: keep the rows whose negated mask
is true (`st.session_state.df = st.session_state.df[mask]`,
`main.py` line 690). -/
def removeFailed (df : Df) : Df :=
  df.filter (fun p => !failedContent (rowContent p.2))

/-- The set of rows the spec's claim says the button drops, written from
the claim's words (null/empty, whitespace-only, shorter than 50
characters, a known error prefix, or one of the three error phrases);
a second definition kept for comparison with `failedContent`. -/
def specFailedContent (c : Cell) : Bool :=
  serIsNa c ||
  serEqEmpty c ||
  serIsSpace c ||
  serLenLt c 50 ||
  serStartsWith c "Error:" ||
  serStartsWith c "No URL provided" ||
  serStartsWith c "Invalid URL" ||
  serContainsCI c "failed to scrape" ||
  serContainsCI c "timed out" ||
  serContainsCI c "access denied"

/-- A scrape result that is long, healthy prose by the spec's criteria
but mentions the word "error", so the general `contains("error")`
arm of the source mask drops it. -/
def errorBudgetContent : String :=
  "Acme Corp builds dashboards that track error budgets for large enterprise engineering teams."

/-- One-row table carrying `errorBudgetContent`. -/
def errorBudgetDf : Df := [(0, [("website_content", some errorBudgetContent)])]

/-! ## Label-based cell writes and the analysis merge
(`main.py` lines 773-794) -/

/-- Update-or-append write of one column of a row (the effect of a
`.loc[idx, col] = v` assignment on the row with label `idx`). -/
def setColRow : Row → String → Cell → Row
  | [], c, v => [(c, v)]
  | (c0, v0) :: rest, c, v =>
    if c0 == c then (c, v) :: rest else (c0, v0) :: setColRow rest c v

/-- `df.loc[idx, col] = v`: rewrite the cell of every row labelled
`idx`, leave the other rows untouched. -/
def setCell : Df → Nat → String → Cell → Df
  | [], _, _, _ => []
  | (k, r) :: rest, idx, c, v =>
    if k == idx then (k, setColRow r c v) :: setCell rest idx c v
    else (k, r) :: setCell rest idx c v

/-- `idx in df.index`. -/
def hasIdx (df : Df) (idx : Nat) : Bool := df.any (fun p => p.1 == idx)

/-- One iteration of the merge loop (`main.py` lines 778-784): for an
analyzed row `(idx, r)`, when `idx` is also an index of the full table,
copy the three analysis cells (and the `company_context` cell when the
analyzed row has that column) to the full table's row `idx`.  Reading a
column the analyzed row does not have raises a `KeyError` in the
source; that outcome is `none`. -/
def mergeStep (full : Df) (idx : Nat) (r : Row) : Option Df :=
  if hasIdx full idx then
    match r.lookup "personality_analysis", r.lookup "conversation_style",
        r.lookup "professional_interests" with
    | some pa, some cs, some pro =>
      let f1 := setCell full idx "personality_analysis" pa
      let f2 := setCell f1 idx "conversation_style" cs
      let f3 := setCell f2 idx "professional_interests" pro
      some (match r.lookup "company_context" with
            | some cc => setCell f3 idx "company_context" cc
            | none => f3)
    | _, _, _ => none
  else some full

/-- The whole merge loop `for idx in result_df.index: ...` over the
analyzed subset. -/
def mergeAnalysis : Df → Df → Option Df
  | full, [] => some full
  | full, (idx, r) :: rest =>
    match mergeStep full idx r with
    | some full1 => mergeAnalysis full1 rest
    | none => none

/-! ## Session state and the UI callbacks -/

/-- The slice of `st.session_state` (plus the two API-key environment
variables) that the specified behaviour depends on.  An `Option String`
key is `none` when the variable is unset; Python truthiness of the
stored string is modelled explicitly. -/
structure AppState where
  openrouterKey : Option String
  tavilyKey : Option String
  nameColumn : Option String
  companyContext : Option Ctx
  contextApproved : Bool
  companyName : String
  dfLoaded : Bool
  df : Df
  processingComplete : Bool
  personalityAnalysisComplete : Bool
  hasCombinedNames : Bool
deriving DecidableEq

/-- Python truthiness of an optional string (`not key`). -/
def pyTruthyOpt : Option String → Bool
  | none => false
  | some s => !(s == "")

/-- Truthiness of the optional company-context dict
(`st.session_state.get("company_context", None)`):
false when the key is absent or the dict is empty. -/
def ctxTruthy : Option Ctx → Bool
  | none => false
  | some c => !c.isEmpty

/-- Update-or-append write of one key of a context dict
(`ctx[k] = v`). -/
def ctxSet : Ctx → String → String → Ctx
  | [], k, v => [(k, v)]
  | (k0, v0) :: rest, k, v =>
    if k0 == k then (k, v) :: rest else (k0, v0) :: ctxSet rest k v

/-- `has_url_entered` (`main.py` line 260):
`"url" in st.session_state.get("company_context", {})`. -/
def hasUrlEntered (s : AppState) : Bool :=
  ((s.companyContext.getD []).lookup "url").isSome

/-- `has_generated_context` (`main.py` line 261):
`bool(ctx.get("description", ""))`. -/
def hasGeneratedContext (s : AppState) : Bool :=
  !(((s.companyContext.getD []).lookup "description").getD "" == "")

/-- The description currently stored in the company context. -/
def ctxDescription (s : AppState) : String :=
  ((s.companyContext.getD []).lookup "description").getD ""

/-- The target geography currently stored in the company context. -/
def ctxGeography (s : AppState) : Option String :=
  (s.companyContext.getD []).lookup "target_geography"

/-- Which branch of the Step-1 expander is rendered
(`main.py` lines 414 / 499 / 520): the review-and-approve section, the
approved-context display, the manual-entry section, or none of them. -/
inductive CtxBranch where
  | review
  | approvedView
  | manualEntry
  | hidden
deriving DecidableEq

/-- The `if / elif context_approved / elif` chain selecting the branch. -/
def contextBranch (s : AppState) : CtxBranch :=
  if hasUrlEntered s && hasGeneratedContext s && !s.contextApproved then .review
  else if s.contextApproved then .approvedView
  else if !hasUrlEntered s && !hasGeneratedContext s then .manualEntry
  else .hidden

/-- Context-dict mutation done by the Analyze handler before the
external call (`main.py` lines 331-341): record the entered URL and,
when non-empty, the entered target geography. -/
def entryCtx (s : AppState) (url geo : String) : Ctx :=
  let c1 := ctxSet (s.companyContext.getD []) "url" url
  if geo == "" then c1 else ctxSet c1 "target_geography" geo

/-- The user-specified target geography as the success path reads it
back from the session context (`main.py` lines 376-377). -/
def userGeographyAfterEntry (s : AppState) (url geo : String) : String :=
  ((entryCtx s url geo).lookup "target_geography").getD ""

/-- The Analyze (company analysis) handler (`main.py` lines 320-411).
The external `analyze_company_context` call is passed in as `res`: an
`Except.error` models a raised exception, caught at line 398 after the
URL/geography mutations of lines 336-341 have happened.  On a truthy
dict result the handler stores the company name, replaces the session
context with the analyzed one, restores a non-empty user geography, and
resets the approval flag (lines 372-391); a falsy dict only shows an
error (line 397). -/
def analyzeCompanyStep (s : AppState) (url geo : String)
    (res : Except String Ctx) : AppState :=
  let s1 : AppState := { s with companyContext := some (entryCtx s url geo) }
  match res with
  | .error _ => s1
  | .ok c =>
    if c.isEmpty then s1
    else
      let userGeo := userGeographyAfterEntry s url geo
      let final := if userGeo == "" then c else ctxSet c "target_geography" userGeo
      { s1 with
          companyName := (c.lookup "name").getD ""
          companyContext := some final
          contextApproved := false }

/-- Control-flow outcome of the Analyze Personalities handler. -/
inductive POutcome where
  | errorKeys
  | errorNameColumn
  | stoppedUnapproved
  | ranAnalysis
deriving DecidableEq

/-- The Analyze Personalities handler (`main.py` lines 720-794).
`result` is the dataframe returned by `run_personality_analysis` on the
`head`-selected subset.  The guard chain: missing API keys error out
(line 737), a falsy name column errors out (line 741), a truthy but
unapproved company context warns and `st.stop()`s (lines 750-755);
otherwise the analysis call is reached and its result is merged back by
index (lines 771-792).  A `KeyError` inside the merge loop aborts the
callback before the session assignments of lines 790-792, leaving the
session unchanged. -/
def analyzeStep (s : AppState) (result : Df) : AppState × POutcome :=
  if !pyTruthyOpt s.openrouterKey || !pyTruthyOpt s.tavilyKey then
    (s, .errorKeys)
  else if !pyTruthyOpt s.nameColumn then
    (s, .errorNameColumn)
  else if ctxTruthy s.companyContext && !s.contextApproved then
    (s, .stoppedUnapproved)
  else
    match mergeAnalysis s.df result with
    | some merged =>
      ({ s with df := merged, personalityAnalysisComplete := true }, .ranAnalysis)
    | none => (s, .ranAnalysis)

/-- Modelled from the spec: `has_name_components` lives in
`utils/data_helpers.py`, which is not part of `src/`; per the spec the
upload step detects "separate first and last name columns" in the
uploaded CSV, so the model reports whether the column list has both a
first-name column and a last-name column under their usual spellings. -/
def isFirstNameColumn (c : String) : Bool :=
  let l := lowerStr c
  l == "first name" || l == "first_name" || l == "firstname" || l == "first"

/-- Modelled from the spec: last-name counterpart of
`isFirstNameColumn`. -/
def isLastNameColumn (c : String) : Bool :=
  let l := lowerStr c
  l == "last name" || l == "last_name" || l == "lastname" || l == "last"

/-- Modelled from the spec: `has_name_components(df)` — the uploaded
table has separate first and last name columns. -/
def hasNameComponents (cols : List String) : Bool :=
  cols.any isFirstNameColumn && cols.any isLastNameColumn

/-- The CSV-upload handler (`main.py` lines 560-578): a no-op when a
table is already loaded; otherwise store the table, set
`has_combined_names` when `has_name_components` detects separate name
columns, and reset the completion flags.  `cols` is the uploaded
table's column list. -/
def uploadStep (s : AppState) (cols : List String) (df : Df) : AppState :=
  if s.dfLoaded then s
  else
    { s with
        df := df
        dfLoaded := true
        hasCombinedNames :=
          if hasNameComponents cols then true else s.hasCombinedNames
        processingComplete := false
        personalityAnalysisComplete := false }

/-- The user actions (button handlers) of the page, with the results of
the external calls they trigger passed in as data. -/
inductive Event where
  | approveContext (name desc geo : String)
  | startOver
  | editContext
  | saveManualContext (name desc geo : String)
  | analyzeCompany (url geo : String) (res : Except String Ctx)
  | analyzePersonalities (result : Df)
  | removeFailedRows
  | uploadCsv (cols : List String) (df : Df)

/-- Session-state transition of one user action.  The context-section
buttons only exist when their branch is rendered, so each is guarded by
`contextBranch`; the remove-rows button is guarded by
`processing_complete` (`main.py` line 668). -/
def step (s : AppState) : Event → AppState
  | .approveContext name desc geo =>
    if contextBranch s = .review then
      { s with
          companyContext := some
            (ctxSet (ctxSet (ctxSet (s.companyContext.getD [])
              "name" name) "description" desc) "target_geography" geo)
          contextApproved := true }
    else s
  | .startOver =>
    if contextBranch s = .review then
      { s with companyContext := none, contextApproved := false }
    else s
  | .editContext =>
    if contextBranch s = .approvedView then
      { s with contextApproved := false }
    else s
  | .saveManualContext name desc geo =>
    if contextBranch s = .manualEntry then
      if !(pyStrip desc == "") then
        { s with
            companyContext := some
              (ctxSet (ctxSet (ctxSet (s.companyContext.getD [])
                "name" name) "description" desc) "target_geography" geo)
            contextApproved := true }
      else s
    else s
  | .analyzeCompany url geo res => analyzeCompanyStep s url geo res
  | .analyzePersonalities result => (analyzeStep s result).1
  | .removeFailedRows =>
    if s.processingComplete then { s with df := removeFailed s.df } else s
  | .uploadCsv cols df => uploadStep s cols df

/-! ## The sidebar API-key prompt (`main.py` lines 37-38 and 208-254) -/

/-- What the sidebar shows about API keys. -/
inductive SidebarView where
  | keyEntryForm
  | successBanner
deriving DecidableEq

/-- `if not openrouter_key or not tavily_key:` render the key-entry
configuration form, `else` the success banner. -/
def sidebarView (o t : Option String) : SidebarView :=
  if !pyTruthyOpt o || !pyTruthyOpt t then .keyEntryForm else .successBanner

/-! ## Concrete states used by counterexamples and witnesses -/

/-- A session state in mid-workflow: keys configured, a name column
mapped, a table scraped, no company context yet. -/
def baseState : AppState :=
  { openrouterKey := some "orKey123"
    tavilyKey := some "tvKey456"
    nameColumn := some "name"
    companyContext := none
    contextApproved := false
    companyName := ""
    dfLoaded := true
    df := [(0, [("website_content", some "hello")])]
    processingComplete := true
    personalityAnalysisComplete := false
    hasCombinedNames := false }

/-- Is the event one of the two approval buttons? -/
def isApprovalEvent : Event → Bool
  | .approveContext _ _ _ => true
  | .saveManualContext _ _ _ => true
  | _ => false

/-- A state in the review-and-approve stage: URL entered and a
generated description present, approval pending. -/
def reviewState : AppState :=
  { baseState with
      companyContext := some
        [("url", "https://a.com"), ("description", "A generated company description")] }

/-- A state holding a truthy (non-empty) company context that has not
been approved. -/
def truthyCtxState : AppState :=
  { baseState with companyContext := some [("name", "Acme")] }

/-- A two-row scraped table. -/
def fullW : Df :=
  [(0, [("website_content", some "abc")]), (1, [("website_content", some "xyz")])]

/-- An analysis result covering only row 0. -/
def resW : Df :=
  [(0, [("personality_analysis", some "P"), ("conversation_style", some "C"),
        ("professional_interests", some "I")])]

/-- `fullW` after merging `resW` back in. -/
def mergedW : Df :=
  [(0, [("website_content", some "abc"), ("personality_analysis", some "P"),
        ("conversation_style", some "C"), ("professional_interests", some "I")]),
   (1, [("website_content", some "xyz")])]

/-! ## Helper lemmas -/

/-- A dict write makes the written key read back the written value. -/
theorem ctxSet_lookup_self (c : Ctx) (k v : String) :
    (ctxSet c k v).lookup k = some v := by
  induction c with
  | nil => simp [ctxSet, List.lookup]
  | cons p rest ih =>
    obtain ⟨k0, v0⟩ := p
    unfold ctxSet
    by_cases h : k0 = k
    · simp [h, List.lookup]
    · have hb : (k0 == k) = false := by simp [h]
      have hb2 : (k == k0) = false := by simp [Ne.symm h]
      simp [hb, List.lookup, hb2, ih]

/-- A dict write leaves the other keys unchanged. -/
theorem ctxSet_lookup_ne (c : Ctx) (k k1 v : String) (h : k1 ≠ k) :
    (ctxSet c k v).lookup k1 = c.lookup k1 := by
  induction c with
  | nil =>
    have hb : (k1 == k) = false := by simp [h]
    simp [ctxSet, List.lookup, hb]
  | cons p rest ih =>
    obtain ⟨k0, v0⟩ := p
    unfold ctxSet
    by_cases h0 : k0 = k
    · have hb : (k0 == k) = true := by simp [h0]
      have hb1 : (k1 == k) = false := by simp [h]
      have hb2 : (k1 == k0) = false := by simp [h0, h]
      simp [hb, List.lookup, hb1, hb2]
    · have hb : (k0 == k) = false := by simp [h0]
      by_cases h1 : k1 = k0
      · simp [hb, List.lookup, h1]
      · have hb1 : (k1 == k0) = false := by simp [h1]
        simp [hb, List.lookup, hb1, ih]

/-- A label-based cell write leaves every other row label's row
unchanged. -/
theorem setCell_lookup_ne (df : Df) (i j : Nat) (c : String) (v : Cell)
    (h : j ≠ i) :
    (setCell df i c v).lookup j = df.lookup j := by
  induction df with
  | nil => rfl
  | cons p rest ih =>
    obtain ⟨k, r⟩ := p
    by_cases hk : k = i
    · have hkb : (k == i) = true := by simp [hk]
      have hjk : (j == k) = false := by simp [hk, h]
      simp only [setCell, hkb, if_true, List.lookup, hjk]
      exact ih
    · have hkb : (k == i) = false := by simp [hk]
      by_cases hjk : j = k
      · have hjkb : (j == k) = true := by simp [hjk]
        simp only [setCell, hkb, Bool.false_eq_true, if_false, List.lookup, hjkb]
      · have hjkb : (j == k) = false := by simp [hjk]
        simp only [setCell, hkb, Bool.false_eq_true, if_false, List.lookup, hjkb]
        exact ih

/-- A label-based cell write does not change the index column. -/
theorem setCell_map_fst (df : Df) (i : Nat) (c : String) (v : Cell) :
    (setCell df i c v).map Prod.fst = df.map Prod.fst := by
  induction df with
  | nil => rfl
  | cons p rest ih =>
    obtain ⟨k, r⟩ := p
    by_cases hk : k = i
    · have hkb : (k == i) = true := by simp [hk]
      simp only [setCell, hkb, if_true, List.map_cons]
      rw [ih]
    · have hkb : (k == i) = false := by simp [hk]
      simp only [setCell, hkb, Bool.false_eq_true, if_false, List.map_cons]
      rw [ih]

/-- One merge iteration leaves every row with a different label
unchanged. -/
theorem mergeStep_lookup_ne {full full1 : Df} {i : Nat} {r : Row} (j : Nat)
    (h : mergeStep full i r = some full1) (hj : j ≠ i) :
    full1.lookup j = full.lookup j := by
  unfold mergeStep at h
  split at h
  · split at h
    · rename_i pa cs pro hpa hcs hpro
      injection h with h
      subst h
      split
      · simp [setCell_lookup_ne _ _ _ _ _ hj]
      · simp [setCell_lookup_ne _ _ _ _ _ hj]
    · exact absurd h (by simp)
  · injection h with h
    subst h
    rfl

/-- One merge iteration does not change the index column. -/
theorem mergeStep_map_fst {full full1 : Df} {i : Nat} {r : Row}
    (h : mergeStep full i r = some full1) :
    full1.map Prod.fst = full.map Prod.fst := by
  unfold mergeStep at h
  split at h
  · split at h
    · injection h with h
      subst h
      split
      · simp [setCell_map_fst]
      · simp [setCell_map_fst]
    · exact absurd h (by simp)
  · injection h with h
    subst h
    rfl

/-- The whole merge loop leaves every row whose label is outside the
analyzed subset unchanged. -/
theorem mergeAnalysis_lookup_notin :
    ∀ (res full merged : Df) (j : Nat),
      mergeAnalysis full res = some merged → j ∉ res.map Prod.fst →
      merged.lookup j = full.lookup j := by
  intro res
  induction res with
  | nil =>
    intro full merged j h _
    unfold mergeAnalysis at h
    injection h with h
    subst h
    rfl
  | cons p rest ih =>
    obtain ⟨i, r⟩ := p
    intro full merged j h hj
    unfold mergeAnalysis at h
    simp only [List.map_cons, List.mem_cons, not_or] at hj
    cases hm : mergeStep full i r with
    | none => rw [hm] at h; exact absurd h (by simp)
    | some full1 =>
      rw [hm] at h
      calc merged.lookup j = full1.lookup j := ih full1 merged j h hj.2
        _ = full.lookup j := mergeStep_lookup_ne j hm hj.1

/-- The whole merge loop does not change the index column. -/
theorem mergeAnalysis_map_fst :
    ∀ (res full merged : Df),
      mergeAnalysis full res = some merged →
      merged.map Prod.fst = full.map Prod.fst := by
  intro res
  induction res with
  | nil =>
    intro full merged h
    unfold mergeAnalysis at h
    injection h with h
    subst h
    rfl
  | cons p rest ih =>
    obtain ⟨i, r⟩ := p
    intro full merged h
    unfold mergeAnalysis at h
    cases hm : mergeStep full i r with
    | none => rw [hm] at h; exact absurd h (by simp)
    | some full1 =>
      rw [hm] at h
      calc merged.map Prod.fst = full1.map Prod.fst := ih full1 merged h
        _ = full.map Prod.fst := mergeStep_map_fst hm

/-- The source mask is the spec's mask plus the general
case-insensitive `contains("error")` arm. -/
theorem failedContent_eq (c : Cell) :
    (failedContent c = false) ↔
      (specFailedContent c = false ∧ serContainsCI c "error" = false) := by
  simp only [failedContent, specFailedContent, Bool.or_eq_false_iff]
  tauto

/-- The Analyze Personalities callback never writes the approval flag. -/
theorem analyzeStep_contextApproved (s : AppState) (r : Df) :
    (analyzeStep s r).1.contextApproved = s.contextApproved := by
  unfold analyzeStep
  split
  · rfl
  · split
    · rfl
    · split
      · rfl
      · split <;> rfl

/-- The company-analysis callback can only clear the approval flag. -/
theorem analyzeCompanyStep_approved (s : AppState) (url geo : String)
    (res : Except String Ctx) (h : s.contextApproved = false) :
    (analyzeCompanyStep s url geo res).contextApproved = false := by
  unfold analyzeCompanyStep
  cases res with
  | error e => exact h
  | ok c =>
    by_cases hc : c.isEmpty
    · simp [hc]
      exact h
    · simp [hc]

/-- `contextBranch` selects the review section exactly under the
source's rendering condition. -/
theorem contextBranch_review_iff (s : AppState) :
    contextBranch s = CtxBranch.review ↔
      (hasUrlEntered s = true ∧ hasGeneratedContext s = true ∧
        s.contextApproved = false) := by
  unfold contextBranch
  by_cases hc : (hasUrlEntered s && hasGeneratedContext s && !s.contextApproved) = true
  · rw [if_pos hc]
    simp only [Bool.and_eq_true, Bool.not_eq_true'] at hc
    simp [hc.1.1, hc.1.2, hc.2]
  · rw [if_neg hc]
    constructor
    · intro h
      split at h
      · exact absurd h (by simp)
      · split at h
        · exact absurd h (by simp)
        · exact absurd h (by simp)
    · intro h
      rw [h.1, h.2.1, h.2.2] at hc
      simp at hc

/-! ## Claim theorems -/

/-- C1 counterexample: with the API keys configured, a name column
mapped, `context_approved = false` and the company context a present
but empty dict, the Analyze Personalities handler still reaches
`run_personality_analysis` — the claim's "regardless of whether a
company context dict is present or empty" fails on the code. -/
theorem analysis_runs_with_empty_context :
    ({ baseState with companyContext := some [] } : AppState).contextApproved = false ∧
    (analyzeStep { baseState with companyContext := some [] } []).2 =
      POutcome.ranAnalysis := by
  decide

/-- C1 (amended): while `context_approved` is false and the company
context dict is present and non-empty (truthy), the Analyze
Personalities handler never reaches `run_personality_analysis`; with an
absent or empty context dict the handler only warns and proceeds. -/
theorem analysis_blocked_when_truthy_unapproved (s : AppState) (r : Df)
    (h0 : s.contextApproved = false) (h1 : ctxTruthy s.companyContext = true) :
    (analyzeStep s r).2 ≠ POutcome.ranAnalysis := by
  unfold analyzeStep
  split
  · simp
  · split
    · simp
    · rw [if_pos (by rw [h0, h1]; rfl)]
      simp

/-- C1 witness: the blocked outcome at a concrete truthy, unapproved
state. -/
theorem analysis_blocked_witness :
    truthyCtxState.contextApproved = false ∧
    ctxTruthy truthyCtxState.companyContext = true ∧
    (analyzeStep truthyCtxState []).2 ≠ POutcome.ranAnalysis :=
  ⟨by decide, by decide,
    analysis_blocked_when_truthy_unapproved truthyCtxState [] (by decide) (by decide)⟩

/-- C2 counterexample: a row whose `website_content` is long, healthy
prose outside the claim's drop set (it is non-null, non-empty, not
whitespace, 92 characters long, has no listed prefix and none of the
three error phrases) is nevertheless dropped, because the source mask
also drops any content containing "error" case-insensitively. -/
theorem remove_failed_drops_extra_row :
    specFailedContent (some errorBudgetContent) = false ∧
    removeFailed errorBudgetDf = [] ∧
    errorBudgetDf.filter (fun p => !specFailedContent (rowContent p.2)) =
      errorBudgetDf := by
  decide

/-- C2 (amended): the button drops exactly the rows whose
`website_content` is null/empty, whitespace-only, shorter than 50
characters, matches a known error prefix or error phrase, or contains
the substring "error" case-insensitively anywhere; every other row is
retained. -/
theorem remove_failed_drops_exactly (df : Df) (p : Nat × Row) :
    p ∈ removeFailed df ↔
      (p ∈ df ∧ specFailedContent (rowContent p.2) = false ∧
        serContainsCI (rowContent p.2) "error" = false) := by
  unfold removeFailed
  simp only [List.mem_filter, Bool.not_eq_true']
  rw [and_congr_right_iff]
  intro _
  exact failedContent_eq (rowContent p.2)

/-- C3: merging the analysis results back into the full table rewrites
only the rows whose index is in the analyzed subset; every row of the
full table whose index is not in the subset keeps all of its prior
column values. -/
theorem merge_leaves_unanalyzed_rows (full res merged : Df) (idx : Nat)
    (hm : mergeAnalysis full res = some merged)
    (hidx : idx ∉ res.map Prod.fst) :
    merged.lookup idx = full.lookup idx :=
  mergeAnalysis_lookup_notin res full merged idx hm hidx

/-- C3 witness: merging a one-row result into a two-row table leaves
row 1 untouched. -/
theorem merge_leaves_unanalyzed_rows_witness :
    mergeAnalysis fullW resW = some mergedW ∧
    List.lookup 1 mergedW = List.lookup 1 fullW :=
  ⟨by decide,
    merge_leaves_unanalyzed_rows fullW resW mergedW 1 (by decide) (by decide)⟩

/-- C4 counterexample: pressing Analyze with a failing company-analysis
call does not leave the session state unchanged — the handler records
the entered URL in `company_context` before the call, and the except
handler keeps that mutation. -/
theorem failed_analysis_changes_state :
    step baseState
      (Event.analyzeCompany "https://example.com" "" (Except.error "network down")) ≠
      baseState := by
  decide

/-- C4 (amended): when the company-analysis call raises, every session
field is unchanged except `company_context`, which now records the
entered URL and, when non-empty, the entered target geography; in
particular the approval flag, the table and the completion flags are
unchanged, so the user can retry via the same button. -/
theorem failed_analysis_frame (s : AppState) (url geo msg : String) :
    (analyzeCompanyStep s url geo (Except.error msg)).openrouterKey = s.openrouterKey ∧
    (analyzeCompanyStep s url geo (Except.error msg)).tavilyKey = s.tavilyKey ∧
    (analyzeCompanyStep s url geo (Except.error msg)).nameColumn = s.nameColumn ∧
    (analyzeCompanyStep s url geo (Except.error msg)).contextApproved = s.contextApproved ∧
    (analyzeCompanyStep s url geo (Except.error msg)).companyName = s.companyName ∧
    (analyzeCompanyStep s url geo (Except.error msg)).dfLoaded = s.dfLoaded ∧
    (analyzeCompanyStep s url geo (Except.error msg)).df = s.df ∧
    (analyzeCompanyStep s url geo (Except.error msg)).processingComplete = s.processingComplete ∧
    (analyzeCompanyStep s url geo (Except.error msg)).personalityAnalysisComplete = s.personalityAnalysisComplete ∧
    (analyzeCompanyStep s url geo (Except.error msg)).hasCombinedNames = s.hasCombinedNames ∧
    (analyzeCompanyStep s url geo (Except.error msg)).companyContext = some (entryCtx s url geo) :=
  ⟨rfl, rfl, rfl, rfl, rfl, rfl, rfl, rfl, rfl, rfl, rfl⟩

/-- C5 counterexample: from a review-stage state with a generated
description, pressing Approve Context after clearing the description
text area sets `context_approved` to true while the stored description
is empty. -/
theorem approve_stores_empty_description :
    reviewState.contextApproved = false ∧
    (step reviewState (Event.approveContext "Acme" "" "NA")).contextApproved = true ∧
    ctxDescription (step reviewState (Event.approveContext "Acme" "" "NA")) = "" := by
  decide

/-- C5 (amended): `context_approved` only becomes true through the
Approve Context or Save Manual Context button.  Save Manual Context
requires a description that is non-empty after stripping whitespace and
stores exactly that description; Approve Context requires that the
previously generated description be non-empty, but stores the
user-edited description, which may be empty. -/
theorem approval_requires_button (s : AppState) (e : Event)
    (h0 : s.contextApproved = false)
    (h1 : (step s e).contextApproved = true) :
    isApprovalEvent e = true ∧
    (∀ name desc geo, e = Event.saveManualContext name desc geo →
      ¬(pyStrip desc = "") ∧ ctxDescription (step s e) = desc) ∧
    (∀ name desc geo, e = Event.approveContext name desc geo →
      hasGeneratedContext s = true ∧ ctxDescription (step s e) = desc) := by
  cases e with
  | approveContext name desc geo =>
    by_cases hb : contextBranch s = CtxBranch.review
    · refine ⟨rfl, ?_, ?_⟩
      · intro n d g h
        cases h
      · intro n d g h
        cases h
        refine ⟨((contextBranch_review_iff s).mp hb).2.1, ?_⟩
        simp only [step, if_pos hb]
        unfold ctxDescription
        simp only [Option.getD_some]
        rw [ctxSet_lookup_ne _ _ _ _ (by decide), ctxSet_lookup_self]
        rfl
    · rw [show step s (Event.approveContext name desc geo) = s from by
        simp only [step, if_neg hb]] at h1
      exact absurd h1 (by rw [h0]; simp)
  | startOver =>
    exfalso
    by_cases hb : contextBranch s = CtxBranch.review
    · rw [show step s Event.startOver =
          { s with companyContext := none, contextApproved := false } from by
        simp only [step, if_pos hb]] at h1
      exact absurd h1 (by simp)
    · rw [show step s Event.startOver = s from by simp only [step, if_neg hb]] at h1
      exact absurd h1 (by rw [h0]; simp)
  | editContext =>
    exfalso
    by_cases hb : contextBranch s = CtxBranch.approvedView
    · rw [show step s Event.editContext = { s with contextApproved := false } from by
        simp only [step, if_pos hb]] at h1
      exact absurd h1 (by simp)
    · rw [show step s Event.editContext = s from by simp only [step, if_neg hb]] at h1
      exact absurd h1 (by rw [h0]; simp)
  | saveManualContext name desc geo =>
    by_cases hb : contextBranch s = CtxBranch.manualEntry
    · by_cases hd : (pyStrip desc == "") = true
      · rw [show step s (Event.saveManualContext name desc geo) = s from by
          simp only [step, if_pos hb, hd, Bool.not_true, Bool.false_eq_true, if_false]] at h1
        exact absurd h1 (by rw [h0]; simp)
      · have hdf : (pyStrip desc == "") = false := by simpa using hd
        refine ⟨rfl, ?_, ?_⟩
        · intro n d g h
          cases h
          refine ⟨by simpa using hd, ?_⟩
          simp only [step, if_pos hb, hdf, Bool.not_false, if_true]
          unfold ctxDescription
          simp only [Option.getD_some]
          rw [ctxSet_lookup_ne _ _ _ _ (by decide), ctxSet_lookup_self]
          rfl
        · intro n d g h
          cases h
    · rw [show step s (Event.saveManualContext name desc geo) = s from by
        simp only [step, if_neg hb]] at h1
      exact absurd h1 (by rw [h0]; simp)
  | analyzeCompany url geo res =>
    exfalso
    have := analyzeCompanyStep_approved s url geo res h0
    rw [show step s (Event.analyzeCompany url geo res) =
        analyzeCompanyStep s url geo res from rfl] at h1
    rw [this] at h1
    exact absurd h1 (by simp)
  | analyzePersonalities result =>
    exfalso
    have := analyzeStep_contextApproved s result
    rw [show step s (Event.analyzePersonalities result) =
        (analyzeStep s result).1 from rfl] at h1
    rw [this, h0] at h1
    exact absurd h1 (by simp)
  | removeFailedRows =>
    exfalso
    by_cases hp : s.processingComplete = true
    · rw [show step s Event.removeFailedRows =
          { s with df := removeFailed s.df } from by
        simp only [step, hp, if_true]] at h1
      rw [show ({ s with df := removeFailed s.df } : AppState).contextApproved =
          s.contextApproved from rfl, h0] at h1
      exact absurd h1 (by simp)
    · have hpf : s.processingComplete = false := by simpa using hp
      rw [show step s Event.removeFailedRows = s from by
        simp only [step, hpf, Bool.false_eq_true, if_false]] at h1
      exact absurd h1 (by rw [h0]; simp)
  | uploadCsv cols df =>
    exfalso
    by_cases hl : s.dfLoaded = true
    · rw [show step s (Event.uploadCsv cols df) = s from by
        simp only [step, uploadStep, hl, if_true]] at h1
      exact absurd h1 (by rw [h0]; simp)
    · have hlf : s.dfLoaded = false := by simpa using hl
      rw [show (step s (Event.uploadCsv cols df)).contextApproved =
          s.contextApproved from by
        simp only [step, uploadStep, hlf, Bool.false_eq_true, if_false]] at h1
      exact absurd h1 (by rw [h0]; simp)

/-- C5 witness: a concrete manual-context save that flips the approval
flag, recognized as an approval event. -/
theorem approval_requires_button_witness :
    baseState.contextApproved = false ∧
    (step baseState (Event.saveManualContext "Acme" "We sell tools" "Global")).contextApproved = true ∧
    isApprovalEvent (Event.saveManualContext "Acme" "We sell tools" "Global") = true :=
  ⟨by decide, by decide,
    (approval_requires_button baseState
      (Event.saveManualContext "Acme" "We sell tools" "Global")
      (by decide) (by decide)).1⟩

/-- C6: row identity is preserved by the three table operations the
pipeline uses — the `head`-selected analysis subset and the
failed-row filter keep each surviving row paired with its original
index, and the merge keeps the full table's index column intact, so
partial results land on the original rows. -/
theorem row_identity_preserved (tbl full res merged : Df) (n : Nat) :
    (∀ p, p ∈ tbl.take n → p ∈ tbl) ∧
    (∀ p, p ∈ removeFailed tbl → p ∈ tbl) ∧
    (mergeAnalysis full res = some merged →
      merged.map Prod.fst = full.map Prod.fst) :=
  ⟨fun _ hp => List.take_subset n tbl hp,
   fun _ hp => List.mem_of_mem_filter hp,
   fun hm => mergeAnalysis_map_fst res full merged hm⟩

/-- C6 witness: the subset, filter and merge facts at a concrete
two-row table. -/
theorem row_identity_preserved_witness :
    (0, [("website_content", some "abc")]) ∈ fullW ∧
    mergedW.map Prod.fst = fullW.map Prod.fst :=
  ⟨(row_identity_preserved fullW fullW resW mergedW 1).1 _ (by decide),
   (row_identity_preserved fullW fullW resW mergedW 1).2.2 (by decide)⟩

/-- C7: uploading a CSV whose columns are exactly `name` and `url`
(no separate first/last name columns, so `has_name_components` is
false) leaves `has_combined_names` false. -/
theorem upload_name_url_keeps_flag (s : AppState) (df : Df)
    (h : s.hasCombinedNames = false) :
    (step s (Event.uploadCsv ["name", "url"] df)).hasCombinedNames = false := by
  have hn : hasNameComponents ["name", "url"] = false := by decide
  simp only [step, uploadStep]
  split
  · exact h
  · simp only [hn, Bool.false_eq_true, if_false]
    exact h

/-- C7 witness: the flag stays false for a concrete upload. -/
theorem upload_name_url_keeps_flag_witness :
    baseState.hasCombinedNames = false ∧
    (step baseState (Event.uploadCsv ["name", "url"] [])).hasCombinedNames = false :=
  ⟨by decide, upload_name_url_keeps_flag baseState [] (by decide)⟩

/-- C8: the API Keys Configuration entry form is rendered if and only
if at least one of the two key environment variables is unset or holds
the empty string; with both present and non-empty the sidebar shows the
success banner instead. -/
theorem key_form_iff_key_missing (o t : Option String) :
    sidebarView o t = SidebarView.keyEntryForm ↔
      (o = none ∨ o = some "" ∨ t = none ∨ t = some "") := by
  cases o with
  | none => simp [sidebarView, pyTruthyOpt]
  | some a =>
    cases t with
    | none => simp [sidebarView, pyTruthyOpt]
    | some b =>
      by_cases ha : a = ""
      · simp [sidebarView, pyTruthyOpt, ha]
      · by_cases hb : b = ""
        · simp [sidebarView, pyTruthyOpt, ha, hb]
        · simp [sidebarView, pyTruthyOpt, ha, hb]

/-- C9: whenever the company-analysis call returns a truthy (non-empty)
context dict, the handler resets `context_approved` to false, so a
previously approved context becomes unapproved on re-run. -/
theorem successful_analysis_resets_approval (s : AppState) (url geo : String)
    (c : Ctx) (hc : c.isEmpty = false) :
    (step s (Event.analyzeCompany url geo (Except.ok c))).contextApproved = false := by
  simp only [step, analyzeCompanyStep, hc, Bool.false_eq_true, if_false]

/-- C9 witness: approval is cleared after a concrete successful run,
also from a previously approved state. -/
theorem successful_analysis_resets_approval_witness :
    ([("name", "Acme")] : Ctx).isEmpty = false ∧
    (step { baseState with contextApproved := true }
      (Event.analyzeCompany "https://a.com" "EMEA"
        (Except.ok [("name", "Acme")]))).contextApproved = false :=
  ⟨by decide,
    successful_analysis_resets_approval { baseState with contextApproved := true }
      "https://a.com" "EMEA" [("name", "Acme")] (by decide)⟩

/-- C10: when the user-specified target geography recorded in the
session context is non-empty, a successful analysis run ends with the
context's `target_geography` equal to that user value, whatever
geography the analyzer returned. -/
theorem user_geography_overrides (s : AppState) (url geo : String) (c : Ctx)
    (hc : c.isEmpty = false)
    (hg : ¬(userGeographyAfterEntry s url geo = "")) :
    ctxGeography (step s (Event.analyzeCompany url geo (Except.ok c))) =
      some (userGeographyAfterEntry s url geo) := by
  have hgb : (userGeographyAfterEntry s url geo == "") = false := by simpa using hg
  simp only [step, analyzeCompanyStep, hc, Bool.false_eq_true, if_false, hgb]
  unfold ctxGeography
  simp only [Option.getD_some]
  exact ctxSet_lookup_self c "target_geography" (userGeographyAfterEntry s url geo)

/-- C10 witness: the user geography "EMEA" wins over the analyzer's
"Mars" at concrete inputs. -/
theorem user_geography_overrides_witness :
    ([("name", "Acme"), ("target_geography", "Mars")] : Ctx).isEmpty = false ∧
    ¬(userGeographyAfterEntry baseState "https://a.com" "EMEA" = "") ∧
    ctxGeography (step baseState
      (Event.analyzeCompany "https://a.com" "EMEA"
        (Except.ok [("name", "Acme"), ("target_geography", "Mars")]))) =
      some (userGeographyAfterEntry baseState "https://a.com" "EMEA") :=
  ⟨by decide, by decide,
    user_geography_overrides baseState "https://a.com" "EMEA"
      [("name", "Acme"), ("target_geography", "Mars")] (by decide) (by decide)⟩

end GtmScrape
